import Mathlib

/-!
Shallow embedding of `src/sample-node-api/server.js` (a Node/Express gateway
over MongoDB, Redis and RabbitMQ) for verifying its specification.

Modelling conventions:
* Backend connection state is the module-level mutable variables of the source:
  `redis` (the ioredis client, null or not), `mongoConnected`, `rabbitChannel`
  (the amqplib channel, null or not) and `rabbitConnected`.  A nullable handle
  is modelled as a `Bool` saying whether it is non-null.
* The external stores (the Mongo collection, the Redis counter value, the
  RabbitMQ queue contents) are carried in the same state record so that the
  effect of live-path operations is visible.
* Each route handler is a pure function of the state plus explicit oracle
  booleans that say whether a given backend call raises at runtime; the
  handler returns the HTTP response, the successor state, and the list of
  backend operations it actually attempted (one entry per backend call made
  by the source code on that control path).
* Connection establishment and the asynchronous error/close callbacks are
  modelled as state transitions; `Event` collects every transition the
  process can undergo and `run` folds a list of events from the start state.
-/

namespace SampleNodeApi

/-- A record of the in-memory fallback user list (`inMemoryUsers` in the source). -/
structure UserRec where
  id : Nat
  name : String
  email : String
deriving Repr, DecidableEq

/-- A user document as stored by the live Mongo path (ids/timestamps elided). -/
structure MongoUser where
  name : String
  email : String
deriving Repr, DecidableEq

/-- The mutable process state of `server.js`: the four connection variables,
the in-memory fallback list, and the externally stored data each backend owns. -/
structure ServerState where
  redis : Bool
  mongoConnected : Bool
  rabbitChannel : Bool
  rabbitConnected : Bool
  inMemoryUsers : List UserRec
  mongoUsers : List MongoUser
  counter : Nat
  queue : List String
deriving Repr, DecidableEq

/-- One backend call attempted by a route handler (network operations only). -/
inductive BackendOp
  | mongoFind
  | mongoCreate
  | redisGet
  | redisIncr
  | rabbitPublish
  | rabbitCheckQueue
deriving Repr, DecidableEq

/-- Result of running one route handler: response, successor state, and the
backend operations the handler attempted, in order. -/
structure HandlerOut (ρ : Type) where
  resp : ρ
  state : ServerState
  ops : List BackendOp
deriving Repr, DecidableEq

/-- The `services` object rendered identically by `GET /health` and `GET /info`. -/
structure HealthServices where
  redis : String
  mongodb : String
  rabbitmq : String
deriving Repr, DecidableEq

/-- `GET /health`: `services` field, from lines 160-164 of the source. -/
def healthServices (s : ServerState) : HealthServices :=
  { redis := if s.redis then "connected" else "not connected"
    mongodb := if s.mongoConnected then "connected" else "not connected"
    rabbitmq := if s.rabbitConnected then "connected" else "not connected" }

/-- `GET /info`: `services` field, from lines 200-204 of the source
(textually the same object as in `GET /health`). -/
def infoServices (s : ServerState) : HealthServices :=
  { redis := if s.redis then "connected" else "not connected"
    mongodb := if s.mongoConnected then "connected" else "not connected"
    rabbitmq := if s.rabbitConnected then "connected" else "not connected" }

/-- JSON body of `POST /users`; a missing field is `none`. -/
structure CreateBody where
  name : Option String
  email : Option String
deriving Repr, DecidableEq

/-- JavaScript falsiness of a string-valued field: absent or empty. -/
def isBlank : Option String → Bool
  | none => true
  | some s => s == ""

/-- Payload of the users-list response: live-path documents or the fallback list. -/
inductive UsersData
  | mongo (users : List MongoUser)
  | memory (users : List UserRec)
deriving Repr, DecidableEq

/-- Response of `GET /users`. -/
structure UsersListResponse where
  success : Bool
  count : Nat
  storage : String
  data : UsersData
deriving Repr, DecidableEq

/-- `GET /users` (source lines 217-228): serve from Mongo when
`mongoConnected`, falling back to `inMemoryUsers` both when Mongo is off and
when the live `User.find` call throws (`findThrows`).  The catch block only
logs; it performs no state change. -/
def getUsersHandler (s : ServerState) (findThrows : Bool) :
    HandlerOut UsersListResponse :=
  if s.mongoConnected then
    if findThrows then
      ⟨⟨true, s.inMemoryUsers.length, "memory", .memory s.inMemoryUsers⟩, s,
        [.mongoFind]⟩
    else
      ⟨⟨true, s.mongoUsers.length, "mongodb", .mongo s.mongoUsers⟩, s,
        [.mongoFind]⟩
  else
    ⟨⟨true, s.inMemoryUsers.length, "memory", .memory s.inMemoryUsers⟩, s, []⟩

/-- Payload of a created-user response. -/
inductive CreatedData
  | mongo (u : MongoUser)
  | memory (u : UserRec)
  | none
deriving Repr, DecidableEq

/-- Response of `POST /users` (HTTP status kept explicitly). -/
structure CreateUserResponse where
  status : Nat
  success : Bool
  storage : Option String
  data : CreatedData
  error : Option String
deriving Repr, DecidableEq

/-- `POST /users` (source lines 231-262).  Validation first; then the live
Mongo insert (throw oracle `createThrows`), then — inside the same try block —
the best-effort RabbitMQ publish guarded by `if (rabbitChannel)` (throw oracle
`publishThrows`); a throw anywhere in the try block reaches the catch, which
responds 500.  When Mongo is off, append to `inMemoryUsers` with
`id = inMemoryUsers.length + 1`. -/
def createUserHandler (s : ServerState) (b : CreateBody)
    (createThrows publishThrows : Bool) : HandlerOut CreateUserResponse :=
  if isBlank b.name || isBlank b.email then
    ⟨⟨400, false, none, .none, some "Name and email are required"⟩, s, []⟩
  else
    let name := b.name.getD ""
    let email := b.email.getD ""
    if s.mongoConnected then
      if createThrows then
        ⟨⟨500, false, none, .none, some "Failed to create user"⟩, s,
          [.mongoCreate]⟩
      else
        let newUser : MongoUser := ⟨name, email⟩
        let s1 := { s with mongoUsers := newUser :: s.mongoUsers }
        if s.rabbitChannel then
          if publishThrows then
            ⟨⟨500, false, none, .none, some "Failed to create user"⟩, s1,
              [.mongoCreate, .rabbitPublish]⟩
          else
            ⟨⟨201, true, some "mongodb", .mongo newUser, none⟩,
              { s1 with queue := s1.queue ++ ["user_created"] },
              [.mongoCreate, .rabbitPublish]⟩
        else
          ⟨⟨201, true, some "mongodb", .mongo newUser, none⟩, s1, [.mongoCreate]⟩
    else
      let newUser : UserRec := ⟨s.inMemoryUsers.length + 1, name, email⟩
      ⟨⟨201, true, some "memory", .memory newUser, none⟩,
        { s with inMemoryUsers := s.inMemoryUsers ++ [newUser] }, []⟩

/-- Response of the two counter endpoints. -/
structure CounterResponse where
  success : Bool
  counter : Nat
  storage : String
  error : Option String
deriving Repr, DecidableEq

/-- `GET /counter` (source lines 284-300): read the counter when the Redis
handle is non-null; a throwing `redis.get` is caught and only logged, leaving
`count = 0`; the `storage` field re-tests `redis` after the try block. -/
def getCounterHandler (s : ServerState) (getThrows : Bool) :
    HandlerOut CounterResponse :=
  if s.redis then
    if getThrows then
      ⟨⟨true, 0, "redis", none⟩, s, [.redisGet]⟩
    else
      ⟨⟨true, s.counter, "redis", none⟩, s, [.redisGet]⟩
  else
    ⟨⟨true, 0, "not available", none⟩, s, []⟩

/-- `POST /counter/increment` (source lines 303-322): with a null Redis handle
respond `success:false` immediately; otherwise call `redis.incr`, and if it
throws, the catch only logs and control falls through to the final
`success:true` response with `count` still 0 and `storage` fixed to redis. -/
def incrementCounterHandler (s : ServerState) (incrThrows : Bool) :
    HandlerOut CounterResponse :=
  if s.redis then
    if incrThrows then
      ⟨⟨true, 0, "redis", none⟩, s, [.redisIncr]⟩
    else
      ⟨⟨true, s.counter + 1, "redis", none⟩, { s with counter := s.counter + 1 },
        [.redisIncr]⟩
  else
    ⟨⟨false, 0, "not available", some "Redis not connected"⟩, s, []⟩

/-- The queue name (`MSMQ_QUEUE`, defaulting to `task_queue`). -/
def MSMQ_QUEUE : String := "task_queue"

/-- Response of `POST /queue/publish`. -/
structure PublishResponse where
  status : Nat
  success : Bool
  queue : Option String
  message : Option String
  error : Option String
deriving Repr, DecidableEq

/-- `POST /queue/publish` (source lines 327-347): validate the `message`
field, reject when the channel is null, otherwise `sendToQueue` (throw oracle
`publishThrows`, caught as a 500). -/
def publishHandler (s : ServerState) (message : Option String)
    (publishThrows : Bool) : HandlerOut PublishResponse :=
  if isBlank message then
    ⟨⟨400, false, none, none, some "Message is required"⟩, s, []⟩
  else if !s.rabbitChannel then
    ⟨⟨200, false, none, none, some "RabbitMQ not connected"⟩, s, []⟩
  else if publishThrows then
    ⟨⟨500, false, none, none, some "Failed to publish message"⟩, s,
      [.rabbitPublish]⟩
  else
    ⟨⟨200, true, some MSMQ_QUEUE, some "Message published successfully", none⟩,
      { s with queue := s.queue ++ ["custom_message"] }, [.rabbitPublish]⟩

/-- Response of `GET /queue/status`. -/
structure QueueStatusResponse where
  success : Bool
  rabbitmq : String
  queue : String
  messageCount : Nat
  error : Option String
deriving Repr, DecidableEq

/-- `GET /queue/status` (source lines 350-367): with a null channel report
`not connected`; otherwise `checkQueue` (throw oracle `checkThrows`, caught
and reported with `rabbitmq: connected`). -/
def queueStatusHandler (s : ServerState) (checkThrows : Bool) :
    HandlerOut QueueStatusResponse :=
  if !s.rabbitChannel then
    ⟨⟨true, "not connected", MSMQ_QUEUE, 0, none⟩, s, []⟩
  else if checkThrows then
    ⟨⟨true, "connected", MSMQ_QUEUE, 0, some "checkQueue error"⟩, s,
      [.rabbitCheckQueue]⟩
  else
    ⟨⟨true, "connected", MSMQ_QUEUE, s.queue.length, none⟩, s,
      [.rabbitCheckQueue]⟩

/-- `toLowerCase` of the source, character by character. -/
def lowerString (s : String) : String :=
  ⟨s.data.map Char.toLower⟩

/-- Parse of `MSMQ_ENABLE`: `(process.env.MSMQ_ENABLE || 'true').toLowerCase() === 'true'`. -/
def parseEnable (v : Option String) : Bool :=
  lowerString (v.getD "true") == "true"

/-- Outcome of a connection attempt against a live backend. -/
inductive ConnectOutcome
  | ok
  | fail
deriving Repr, DecidableEq

/-- `connectRedis` (source lines 46-77): the constructor either yields a
client (events only log on connect) or throws, in which case the catch sets
`redis = null`. -/
def connectRedis (outcome : ConnectOutcome) (s : ServerState) : ServerState :=
  match outcome with
  | .ok => { s with redis := true }
  | .fail => { s with redis := false }

/-- The ioredis `error` event handler (source lines 69-72): `redis = null`. -/
def redisOnError (s : ServerState) : ServerState :=
  { s with redis := false }

/-- `connectMongo` (source lines 83-92). -/
def connectMongo (outcome : ConnectOutcome) (s : ServerState) : ServerState :=
  match outcome with
  | .ok => { s with mongoConnected := true }
  | .fail => { s with mongoConnected := false }

/-- `connectRabbitMQ` (source lines 116-145): when `MSMQ_ENABLE` is off it
returns before any network call; otherwise the connect attempt either sets
channel and flag or the catch clears both.  The second component records
whether a network attempt toward the broker was made. -/
def connectRabbitMQ (enable : Bool) (outcome : ConnectOutcome)
    (s : ServerState) : ServerState × Bool :=
  if !enable then
    (s, false)
  else
    match outcome with
    | .ok => ({ s with rabbitChannel := true, rabbitConnected := true }, true)
    | .fail => ({ s with rabbitChannel := false, rabbitConnected := false }, true)

/-- The amqplib connection `error` handler (source lines 129-133). -/
def rabbitOnError (s : ServerState) : ServerState :=
  { s with rabbitConnected := false, rabbitChannel := false }

/-- The amqplib connection `close` handler (source lines 135-139). -/
def rabbitOnClose (s : ServerState) : ServerState :=
  { s with rabbitConnected := false, rabbitChannel := false }

/-- An inbound HTTP request, with the throw oracles for the backend calls its
handler may make. -/
inductive Request
  | health
  | info
  | getUsers (findThrows : Bool)
  | createUser (body : CreateBody) (createThrows publishThrows : Bool)
  | getCounter (getThrows : Bool)
  | incrementCounter (incrThrows : Bool)
  | publish (message : Option String) (publishThrows : Bool)
  | queueStatus (checkThrows : Bool)
deriving Repr, DecidableEq

/-- Dispatch of one request: successor state and attempted backend operations. -/
def runRequest (s : ServerState) : Request → ServerState × List BackendOp
  | .health => (s, [])
  | .info => (s, [])
  | .getUsers t => ((getUsersHandler s t).state, (getUsersHandler s t).ops)
  | .createUser b c p =>
      ((createUserHandler s b c p).state, (createUserHandler s b c p).ops)
  | .getCounter t => ((getCounterHandler s t).state, (getCounterHandler s t).ops)
  | .incrementCounter t =>
      ((incrementCounterHandler s t).state, (incrementCounterHandler s t).ops)
  | .publish m p => ((publishHandler s m p).state, (publishHandler s m p).ops)
  | .queueStatus t =>
      ((queueStatusHandler s t).state, (queueStatusHandler s t).ops)

/-- Everything that can happen to the process state after startup. -/
inductive Event
  | redisConnect (outcome : ConnectOutcome)
  | redisError
  | mongoConnect (outcome : ConnectOutcome)
  | rabbitConnect (outcome : ConnectOutcome)
  | rabbitError
  | rabbitClose
  | request (r : Request)
deriving Repr, DecidableEq

/-- One state transition of the process. -/
def step (enable : Bool) (s : ServerState) : Event → ServerState
  | .redisConnect oc => connectRedis oc s
  | .redisError => redisOnError s
  | .mongoConnect oc => connectMongo oc s
  | .rabbitConnect oc => (connectRabbitMQ enable oc s).fst
  | .rabbitError => rabbitOnError s
  | .rabbitClose => rabbitOnClose s
  | .request r => (runRequest s r).fst

/-- Whether an event performs network I/O toward the broker: the connect
attempt when enabled, or a request whose handler attempted a broker call. -/
def brokerAttempt (enable : Bool) (s : ServerState) : Event → Bool
  | .rabbitConnect _ => enable
  | .request r =>
      (runRequest s r).snd.contains .rabbitPublish ||
        (runRequest s r).snd.contains .rabbitCheckQueue
  | _ => false

/-- Fold a list of events over a state. -/
def run (enable : Bool) (s : ServerState) : List Event → ServerState
  | [] => s
  | e :: es => run enable (step enable s e) es

/-- Whether any event of the trace performs network I/O toward the broker. -/
def brokerAttemptedAnywhere (enable : Bool) (s : ServerState) :
    List Event → Bool
  | [] => false
  | e :: es =>
      brokerAttempt enable s e ||
        brokerAttemptedAnywhere enable (step enable s e) es

/-- The process start state: connection flags false (connects have not yet
resolved), `inMemoryUsers` seeded with the two literal records of source
lines 211-214, external stores empty. -/
def initState : ServerState :=
  { redis := false
    mongoConnected := false
    rabbitChannel := false
    rabbitConnected := false
    inMemoryUsers :=
      [⟨1, "John Doe", "john@example.com"⟩, ⟨2, "Jane Smith", "jane@example.com"⟩]
    mongoUsers := []
    counter := 0
    queue := [] }

/-- The ids of the fallback user list, in order. -/
def idsOf (l : List UserRec) : List Nat :=
  l.map (fun u => u.id)

/-- The maximum id present in the fallback user list (0 when empty). -/
def maxId (l : List UserRec) : Nat :=
  l.foldr (fun u m => Nat.max u.id m) 0

/-- Run a sequence of `POST /users` requests (bodies as name/email pairs). -/
def runCreates (s : ServerState) : List (String × String) → ServerState
  | [] => s
  | b :: bs =>
      runCreates (createUserHandler s ⟨some b.1, some b.2⟩ false false).state bs

/-- The ids of the fallback list are exactly 1..length, in order. -/
def canonicalIds (l : List UserRec) : Prop :=
  idsOf l = List.range' 1 l.length

instance (l : List UserRec) : Decidable (canonicalIds l) :=
  inferInstanceAs (Decidable (idsOf l = List.range' 1 l.length))

lemma runRequest_rabbit_state (s : ServerState) (r : Request) :
    (runRequest s r).fst.rabbitChannel = s.rabbitChannel ∧
    (runRequest s r).fst.rabbitConnected = s.rabbitConnected := by
  cases r <;>
    simp only [runRequest, getUsersHandler, createUserHandler, getCounterHandler,
      incrementCounterHandler, publishHandler, queueStatusHandler] <;>
    repeat' split
  all_goals first
    | exact ⟨rfl, rfl⟩
    | exact ⟨trivial, trivial⟩

lemma runRequest_no_rabbit_ops (s : ServerState) (r : Request)
    (h : s.rabbitChannel = false) :
    BackendOp.rabbitPublish ∉ (runRequest s r).snd ∧
    BackendOp.rabbitCheckQueue ∉ (runRequest s r).snd := by
  cases r <;>
    simp only [runRequest, getUsersHandler, createUserHandler, getCounterHandler,
      incrementCounterHandler, publishHandler, queueStatusHandler] <;>
    repeat' split
  all_goals simp_all

lemma disabled_trace (evs : List Event) :
    ∀ s : ServerState, s.rabbitChannel = false → s.rabbitConnected = false →
      ((run false s evs).rabbitChannel = false ∧
        (run false s evs).rabbitConnected = false) ∧
      brokerAttemptedAnywhere false s evs = false := by
  induction evs with
  | nil =>
      intro s h1 h2
      exact ⟨⟨h1, h2⟩, rfl⟩
  | cons e es ih =>
      intro s h1 h2
      have hch : (step false s e).rabbitChannel = false ∧
          (step false s e).rabbitConnected = false := by
        cases e
        case redisConnect oc => cases oc <;> exact ⟨h1, h2⟩
        case redisError => exact ⟨h1, h2⟩
        case mongoConnect oc => cases oc <;> exact ⟨h1, h2⟩
        case rabbitConnect oc => cases oc <;> exact ⟨h1, h2⟩
        case rabbitError => exact ⟨rfl, rfl⟩
        case rabbitClose => exact ⟨rfl, rfl⟩
        case request r =>
          exact ⟨(runRequest_rabbit_state s r).1.trans h1,
            (runRequest_rabbit_state s r).2.trans h2⟩
      have hatt : brokerAttempt false s e = false := by
        cases e
        case request r =>
          have h := runRequest_no_rabbit_ops s r h1
          simp [brokerAttempt, h.1, h.2]
        all_goals rfl
      have ih' := ih (step false s e) hch.1 hch.2
      refine ⟨ih'.1, ?_⟩
      simp [brokerAttemptedAnywhere, hatt, ih'.2]

lemma run_connected_implies_channel (enable : Bool) (evs : List Event) :
    ∀ s : ServerState, (s.rabbitConnected = true → s.rabbitChannel = true) →
      (run enable s evs).rabbitConnected = true →
      (run enable s evs).rabbitChannel = true := by
  induction evs with
  | nil => intro s h; exact h
  | cons e es ih =>
      intro s h
      apply ih
      cases e
      case redisConnect oc => cases oc <;> exact h
      case redisError => exact h
      case mongoConnect oc => cases oc <;> exact h
      case rabbitConnect oc =>
        cases hEn : enable <;> cases oc <;>
          simp [step, connectRabbitMQ] <;> exact h
      case rabbitError => intro hc; exact absurd hc (by simp [step, rabbitOnError])
      case rabbitClose => intro hc; exact absurd hc (by simp [step, rabbitOnClose])
      case request r =>
        intro hc
        have hs := runRequest_rabbit_state s r
        have : s.rabbitConnected = true := by
          rw [← hs.2]; exact hc
        rw [show (step enable s (Event.request r)) = (runRequest s r).fst from rfl,
          hs.1]
        exact h this

lemma foldr_max_range' (c n : Nat) :
    List.foldr Nat.max c (List.range' 1 n) = Nat.max c n := by
  induction n generalizing c with
  | zero => simp
  | succ n ih =>
      rw [List.range'_concat, List.foldr_append]
      simp only [List.foldr]
      rw [ih]
      simp only [Nat.max_def]
      repeat' split
      all_goals omega

lemma maxId_eq_foldr (l : List UserRec) :
    maxId l = List.foldr Nat.max 0 (idsOf l) := by
  simp [maxId, idsOf, List.foldr_map]

lemma maxId_of_canonical (l : List UserRec) (h : canonicalIds l) :
    maxId l = l.length := by
  rw [maxId_eq_foldr, h, foldr_max_range']
  simp only [Nat.max_def]
  split
  all_goals omega

lemma canonical_append (l : List UserRec) (name email : String)
    (h : canonicalIds l) :
    canonicalIds (l ++ [⟨l.length + 1, name, email⟩]) := by
  unfold canonicalIds idsOf at h ⊢
  have h2 : (1 : Nat) + 1 * l.length = l.length + 1 := by omega
  simp only [List.map_append, List.length_append, List.length_singleton]
  rw [h, List.range'_concat, h2]
  simp

lemma isBlank_some_eq_false (s : String) (h : s ≠ "") :
    isBlank (some s) = false := by
  simp [isBlank, h]

lemma createUser_fallback_state (s : ServerState) (name email : String)
    (c p : Bool) (hm : s.mongoConnected = false) (hn : name ≠ "")
    (he : email ≠ "") :
    createUserHandler s ⟨some name, some email⟩ c p =
      ⟨⟨201, true, some "memory",
          .memory ⟨s.inMemoryUsers.length + 1, name, email⟩, none⟩,
        { s with inMemoryUsers :=
            s.inMemoryUsers ++ [⟨s.inMemoryUsers.length + 1, name, email⟩] },
        []⟩ := by
  simp [createUserHandler, isBlank_some_eq_false _ hn, isBlank_some_eq_false _ he,
    hm]

lemma runCreates_canonical (bodies : List (String × String)) :
    ∀ s : ServerState, s.mongoConnected = false →
      (∀ p ∈ bodies, p.1 ≠ "" ∧ p.2 ≠ "") →
      canonicalIds s.inMemoryUsers →
      (runCreates s bodies).mongoConnected = false ∧
      canonicalIds (runCreates s bodies).inMemoryUsers ∧
      (runCreates s bodies).inMemoryUsers.length
        = s.inMemoryUsers.length + bodies.length := by
  induction bodies with
  | nil =>
      intro s hm _ hc
      exact ⟨hm, hc, rfl⟩
  | cons b bs ih =>
      intro s hm hv hc
      have hb : b.1 ≠ "" ∧ b.2 ≠ "" := hv b (by simp)
      have hstep := createUser_fallback_state s b.1 b.2 false false hm hb.1 hb.2
      have hrun : runCreates s (b :: bs)
          = runCreates (createUserHandler s ⟨some b.1, some b.2⟩ false false).state
              bs := rfl
      rw [hrun, hstep]
      have hnext := ih
        { s with inMemoryUsers :=
            s.inMemoryUsers ++ [⟨s.inMemoryUsers.length + 1, b.1, b.2⟩] }
        hm (fun p hp => hv p (by simp [hp]))
        (canonical_append s.inMemoryUsers b.1 b.2 hc)
      refine ⟨hnext.1, hnext.2.1, ?_⟩
      have hlen : ({ s with inMemoryUsers :=
          s.inMemoryUsers ++ [⟨s.inMemoryUsers.length + 1, b.1, b.2⟩] }
            : ServerState).inMemoryUsers.length
          = s.inMemoryUsers.length + 1 := by
        simp
      rw [hnext.2.2, hlen]
      simp only [List.length_cons]
      omega

/-- Claim C1, counterexample: with the Broker enable flag configured off
(`MSMQ_ENABLE=false`), the startup connect attempt performs no broker I/O,
but the availability snapshot rendered by `GET /health` and `GET /info`
reports the broker as `"not connected"` — not `"disabled"` as the claim
states.  The source renders only `connected`/`not connected`. -/
theorem c1_counterexample :
    brokerAttemptedAnywhere (parseEnable (some "false")) initState
        [Event.rabbitConnect ConnectOutcome.ok] = false ∧
    (healthServices (run (parseEnable (some "false")) initState
        [Event.rabbitConnect ConnectOutcome.ok])).rabbitmq = "not connected" ∧
    (infoServices (run (parseEnable (some "false")) initState
        [Event.rabbitConnect ConnectOutcome.ok])).rabbitmq = "not connected" ∧
    (healthServices (run (parseEnable (some "false")) initState
        [Event.rabbitConnect ConnectOutcome.ok])).rabbitmq ≠ "disabled" := by
  decide

/-- Claim C1, amended: if the Broker enable flag is configured off, then for
any sequence of process events no network I/O is ever attempted toward the
broker, and `GET /health` and `GET /info` report the broker's status as
`"not connected"` (the code has no distinct `"disabled"` status). -/
theorem c1_amended_disabled_no_broker_io (evs : List Event) :
    parseEnable (some "false") = false ∧
    brokerAttemptedAnywhere (parseEnable (some "false")) initState evs = false ∧
    (healthServices
        (run (parseEnable (some "false")) initState evs)).rabbitmq
      = "not connected" ∧
    (infoServices
        (run (parseEnable (some "false")) initState evs)).rabbitmq
      = "not connected" := by
  have hE : parseEnable (some "false") = false := by decide
  have h := disabled_trace evs initState rfl rfl
  rw [hE]
  refine ⟨rfl, h.2, ?_, ?_⟩
  · simp [healthServices, h.1.2]
  · simp [infoServices, h.1.2]

/-- Claim C7: in every reachable state, the snapshot rendered by
`GET /health` (and `GET /info`) never reports the broker as connected while
the channel object is null, and never reports the cache as connected while
the client object is null. -/
theorem c7_no_connected_without_session (enable : Bool) (evs : List Event) :
    ((healthServices (run enable initState evs)).rabbitmq = "connected" →
      (run enable initState evs).rabbitChannel = true) ∧
    ((healthServices (run enable initState evs)).redis = "connected" →
      (run enable initState evs).redis = true) ∧
    ((infoServices (run enable initState evs)).rabbitmq = "connected" →
      (run enable initState evs).rabbitChannel = true) := by
  have hinv := run_connected_implies_channel enable evs initState
    (fun h => absurd h (by decide))
  refine ⟨?_, ?_, ?_⟩
  · intro h
    cases hc : (run enable initState evs).rabbitConnected with
    | true => exact hinv hc
    | false => simp [healthServices, hc] at h
  · intro h
    cases hr : (run enable initState evs).redis with
    | true => rfl
    | false => simp [healthServices, hr] at h
  · intro h
    cases hc : (run enable initState evs).rabbitConnected with
    | true => exact hinv hc
    | false => simp [infoServices, hc] at h

/-- Claim C7, witness: after a successful broker connect, the snapshot reports
connected and indeed the channel is non-null. -/
theorem c7_witness :
    (run true initState [Event.rabbitConnect ConnectOutcome.ok]).rabbitChannel
      = true :=
  (c7_no_connected_without_session true
    [Event.rabbitConnect ConnectOutcome.ok]).1 (by decide)

/-- Claim C2, counterexample: when a live-path attempt against an available
backend raises, the backend handle is NOT demoted.  With Mongo connected, a
throwing `User.find` leaves `mongoConnected` true and the state unchanged, so
the very next request still takes the live path; with Redis non-null, a
throwing `redis.get` yields a response with storage `"redis"` — not the
`"not available"` shape of the unavailable-from-start path — and leaves the
handle intact. -/
theorem c2_counterexample :
    (getUsersHandler { initState with mongoConnected := true } true).state.mongoConnected = true ∧
    (getUsersHandler
        (getUsersHandler { initState with mongoConnected := true } true).state
        false).resp.storage = "mongodb" ∧
    (getCounterHandler { initState with redis := true } true).resp.storage
      = "redis" ∧
    (getCounterHandler initState false).resp.storage = "not available" ∧
    (getCounterHandler { initState with redis := true } true).state.redis
      = true := by
  decide

/-- Claim C2, amended: a runtime error on the live path of `GET /users` yields
the same memory-fallback response as when Mongo is unavailable from the start,
and a runtime error on the live path of `GET /counter` yields a success
response with counter 0 and storage `"redis"` (not the unavailable-path
shape); in neither case is the handle demoted — the state is unchanged, so the
very next request still sees the backend as available and takes the live
path. -/
theorem c2_amended_no_demotion (s t : ServerState)
    (hm : s.mongoConnected = true) (hr : t.redis = true) :
    (getUsersHandler s true).resp
      = (getUsersHandler { s with mongoConnected := false } false).resp ∧
    (getUsersHandler s true).state = s ∧
    (getUsersHandler (getUsersHandler s true).state false).resp.storage
      = "mongodb" ∧
    (getCounterHandler t true).resp = ⟨true, 0, "redis", none⟩ ∧
    (getCounterHandler t true).state = t ∧
    (getCounterHandler (getCounterHandler t true).state false).resp.storage
      = "redis" := by
  refine ⟨?_, ?_, ?_, ?_, ?_, ?_⟩ <;>
    simp [getUsersHandler, getCounterHandler, hm, hr]

/-- Claim C2, witness: the amended statement evaluated in a state with both
backends live. -/
theorem c2_witness :
    (getUsersHandler { initState with mongoConnected := true } true).state
      = { initState with mongoConnected := true } :=
  (c2_amended_no_demotion { initState with mongoConnected := true }
    { initState with redis := true } rfl rfl).2.1

/-- Claim C3, counterexample: with Mongo connected and a non-null broker
channel, a valid user creation whose `sendToQueue` call throws is answered
with the 500 failure response — the publish outcome does fail the request,
contrary to the claim. -/
theorem c3_counterexample :
    (createUserHandler
        { initState with mongoConnected := true, rabbitChannel := true, rabbitConnected := true }
        ⟨some "Ann", some "ann@x.com"⟩ false true).resp
      = ⟨500, false, none, .none, some "Failed to create user"⟩ := by
  decide

/-- Claim C3, amended: a valid user creation succeeds regardless of the broker
being unavailable (the publish is skipped when the channel is null, both on
the live Mongo path and on the memory fallback), but if the publish call
itself throws, the request is answered 500 even though the user was already
inserted into the store. -/
theorem c3_amended_publish (s : ServerState) (b : CreateBody)
    (hn : isBlank b.name = false) (he : isBlank b.email = false) :
    (s.mongoConnected = true → s.rabbitChannel = false →
      (createUserHandler s b false false).resp.status = 201 ∧
      (createUserHandler s b false false).resp.success = true) ∧
    (s.mongoConnected = false →
      ∀ c p : Bool,
        (createUserHandler s b c p).resp.status = 201 ∧
        (createUserHandler s b c p).resp.success = true) ∧
    (s.mongoConnected = true → s.rabbitChannel = true →
      (createUserHandler s b false true).resp.status = 500 ∧
      (createUserHandler s b false true).resp.success = false ∧
      (createUserHandler s b false true).state.mongoUsers
        = ⟨b.name.getD "", b.email.getD ""⟩ :: s.mongoUsers) := by
  refine ⟨?_, ?_, ?_⟩
  · intro hm hc
    simp [createUserHandler, hn, he, hm, hc]
  · intro hm c p
    simp [createUserHandler, hn, he, hm]
  · intro hm hc
    simp [createUserHandler, hn, he, hm, hc]

/-- Claim C3, witness: the amended statement evaluated with the broker
unavailable and with a throwing publish. -/
theorem c3_witness :
    (createUserHandler { initState with mongoConnected := true }
        ⟨some "Ann", some "ann@x.com"⟩ false false).resp.status = 201 :=
  ((c3_amended_publish { initState with mongoConnected := true }
    ⟨some "Ann", some "ann@x.com"⟩ (by decide) (by decide)).1 rfl rfl).1

/-- Claim C4, counterexample: with the Redis handle non-null, a throwing
`redis.incr` on `POST /counter/increment` is answered with
`success:true, counter:0, storage:"redis"` — a success with a fabricated
counter value, not the "service unavailable" failure the claim requires. -/
theorem c4_counterexample :
    (incrementCounterHandler { initState with redis := true } true).resp
      = ⟨true, 0, "redis", none⟩ := by
  decide

/-- Claim C4, amended: when a previously healthy cache raises mid-increment,
the response is `success:true` with counter 0 and storage `"redis"` and the
state is unchanged; a failure result is returned only when the cache is
already unavailable at the start of the request. -/
theorem c4_amended_increment_error (s t : ServerState)
    (hr : s.redis = true) (ht : t.redis = false) :
    (incrementCounterHandler s true).resp = ⟨true, 0, "redis", none⟩ ∧
    (incrementCounterHandler s true).state = s ∧
    (∀ p : Bool, incrementCounterHandler t p
      = ⟨⟨false, 0, "not available", some "Redis not connected"⟩, t, []⟩) := by
  refine ⟨?_, ?_, ?_⟩
  · simp [incrementCounterHandler, hr]
  · simp [incrementCounterHandler, hr]
  · intro p
    simp [incrementCounterHandler, ht]

/-- Claim C4, witness: the amended statement evaluated in a state with the
cache live. -/
theorem c4_witness :
    (incrementCounterHandler { initState with redis := true } true).state
      = { initState with redis := true } :=
  (c4_amended_increment_error { initState with redis := true } initState
    rfl rfl).2.1

/-- Claim C6: with the cache available and the counter at 5, increment yields
counter 6 with storage `"redis"`; with the cache unavailable at the start of
the request, the response is the failure result and no fabricated counter
value is reported as a success. -/
theorem c6_counter_increment (s t : ServerState)
    (hr : s.redis = true) (h5 : s.counter = 5) (ht : t.redis = false) :
    (incrementCounterHandler s false).resp = ⟨true, 6, "redis", none⟩ ∧
    (incrementCounterHandler s false).state.counter = 6 ∧
    (incrementCounterHandler t false).resp
      = ⟨false, 0, "not available", some "Redis not connected"⟩ ∧
    (incrementCounterHandler t false).resp.success = false := by
  refine ⟨?_, ?_, ?_, ?_⟩ <;>
    simp [incrementCounterHandler, hr, h5, ht]

/-- Claim C6, witness: evaluated at a live-cache state with counter 5 and at
the start state (cache down). -/
theorem c6_witness :
    (incrementCounterHandler { initState with redis := true, counter := 5 }
        false).resp = ⟨true, 6, "redis", none⟩ :=
  (c6_counter_increment { initState with redis := true, counter := 5 }
    initState rfl rfl rfl).1

/-- Claim C5: appending user creations to the in-memory substitute keeps the
ids exactly 1..length, so each new record's id is the current maximum id plus
one and the ids are unique and strictly increasing; and against an empty
substitute (Document Store unavailable) the first create yields id 1 and the
second id 2, both reported with storage memory. -/
theorem c5_inMemory_ids (bodies : List (String × String)) (s : ServerState)
    (hm : s.mongoConnected = false)
    (hv : ∀ p ∈ bodies, p.1 ≠ "" ∧ p.2 ≠ "")
    (hc : canonicalIds s.inMemoryUsers) :
    canonicalIds (runCreates s bodies).inMemoryUsers ∧
    List.Pairwise (fun a b => a < b)
      (idsOf (runCreates s bodies).inMemoryUsers) ∧
    (idsOf (runCreates s bodies).inMemoryUsers).Nodup ∧
    (∀ name email : String, ∀ c p : Bool, name ≠ "" → email ≠ "" →
      (createUserHandler s ⟨some name, some email⟩ c p).state.inMemoryUsers
        = s.inMemoryUsers ++ [⟨maxId s.inMemoryUsers + 1, name, email⟩] ∧
      (createUserHandler s ⟨some name, some email⟩ c p).resp.storage
        = some "memory" ∧
      (createUserHandler s ⟨some name, some email⟩ c p).resp.data
        = .memory ⟨maxId s.inMemoryUsers + 1, name, email⟩) ∧
    ((createUserHandler { initState with inMemoryUsers := [] }
        ⟨some "Ann", some "ann@x.com"⟩ false false).resp.data
      = .memory ⟨1, "Ann", "ann@x.com"⟩ ∧
      (createUserHandler { initState with inMemoryUsers := [] }
        ⟨some "Ann", some "ann@x.com"⟩ false false).resp.storage
        = some "memory" ∧
      (createUserHandler
        (createUserHandler { initState with inMemoryUsers := [] }
          ⟨some "Ann", some "ann@x.com"⟩ false false).state
        ⟨some "Ann", some "ann@x.com"⟩ false false).resp.data
        = .memory ⟨2, "Ann", "ann@x.com"⟩ ∧
      (createUserHandler
        (createUserHandler { initState with inMemoryUsers := [] }
          ⟨some "Ann", some "ann@x.com"⟩ false false).state
        ⟨some "Ann", some "ann@x.com"⟩ false false).resp.storage
        = some "memory") := by
  have hrun := runCreates_canonical bodies s hm hv hc
  have hmax := maxId_of_canonical s.inMemoryUsers hc
  refine ⟨hrun.2.1, ?_, ?_, ?_, by decide⟩
  · rw [hrun.2.1]
    exact List.pairwise_lt_range' _ _
  · rw [hrun.2.1]
    exact List.nodup_range' _ _
  · intro name email c p hn he
    rw [createUser_fallback_state s name email c p hm hn he, hmax]
    exact ⟨rfl, rfl, rfl⟩

/-- Claim C5, witness: one create appended to the seeded start state. -/
theorem c5_witness :
    canonicalIds (runCreates initState [("Ann", "ann@x.com")]).inMemoryUsers :=
  (c5_inMemory_ids [("Ann", "ann@x.com")] initState rfl (by decide)
    (by decide)).1

/-- Claim C8: the storage path of `GET /users` and `POST /counter/increment`
is a function of the backend's availability flag at the moment of the request
alone, and after any single event that leaves a backend available the very
next request takes the live path — no restart or cache-clear step exists. -/
theorem c8_path_reevaluated (enable : Bool) (s : ServerState) (e : Event) :
    ((getUsersHandler s false).resp.storage
      = if s.mongoConnected then "mongodb" else "memory") ∧
    ((incrementCounterHandler s false).resp.storage
      = if s.redis then "redis" else "not available") ∧
    ((step enable s e).mongoConnected = true →
      (getUsersHandler (step enable s e) false).resp.storage = "mongodb") ∧
    ((step enable s e).redis = true →
      (incrementCounterHandler (step enable s e) false).resp.success = true ∧
      (incrementCounterHandler (step enable s e) false).resp.storage
        = "redis") := by
  refine ⟨?_, ?_, ?_, ?_⟩
  · cases hm : s.mongoConnected <;> simp [getUsersHandler, hm]
  · cases hr : s.redis <;> simp [incrementCounterHandler, hr]
  · intro h
    simp [getUsersHandler, h]
  · intro h
    simp [incrementCounterHandler, h]

/-- Claim C8, witness: a Mongo connect event between two requests makes the
very next `GET /users` serve from Mongo. -/
theorem c8_witness :
    (getUsersHandler (step true initState (Event.mongoConnect ConnectOutcome.ok))
        false).resp.storage = "mongodb" :=
  (c8_path_reevaluated true initState
    (Event.mongoConnect ConnectOutcome.ok)).2.2.1 (by decide)

/-- Claim C9: a user-creation request missing name or email, and a publish
request missing the message field, are rejected with a 400 validation failure
before any backend operation is attempted (no backend call in the attempted
operations, state — backend and fallback alike — unchanged). -/
theorem c9_validation_first (s : ServerState) (b : CreateBody) (c p q : Bool)
    (m : Option String)
    (hb : (isBlank b.name || isBlank b.email) = true)
    (hm : isBlank m = true) :
    createUserHandler s b c p
      = ⟨⟨400, false, none, .none, some "Name and email are required"⟩, s, []⟩ ∧
    publishHandler s m q
      = ⟨⟨400, false, none, none, some "Message is required"⟩, s, []⟩ := by
  constructor
  · simp [createUserHandler, hb]
  · simp [publishHandler, hm]

/-- Claim C9, witness: a body with a missing name and a publish with a missing
message, evaluated at the start state. -/
theorem c9_witness :
    createUserHandler initState ⟨none, some "ann@x.com"⟩ false false
      = ⟨⟨400, false, none, .none, some "Name and email are required"⟩,
          initState, []⟩ :=
  (c9_validation_first initState ⟨none, some "ann@x.com"⟩ false false false
    none (by decide) (by decide)).1

/-- Claim C10: at process start the in-memory substitute holds exactly the two
seeded records with ids 1 and 2, and with the Document Store unavailable the
first fallback create in a fresh process receives id 3. -/
theorem c10_seeded_substitute :
    initState.inMemoryUsers
      = [⟨1, "John Doe", "john@example.com"⟩,
          ⟨2, "Jane Smith", "jane@example.com"⟩] ∧
    initState.inMemoryUsers.length = 2 ∧
    idsOf initState.inMemoryUsers = [1, 2] ∧
    initState.mongoConnected = false ∧
    (createUserHandler initState ⟨some "Ann", some "ann@x.com"⟩ false false).resp
      = ⟨201, true, some "memory", .memory ⟨3, "Ann", "ann@x.com"⟩, none⟩ ∧
    (createUserHandler initState
        ⟨some "Ann", some "ann@x.com"⟩ false false).state.inMemoryUsers.length
      = 3 := by
  decide

end SampleNodeApi
